import Mathlib

/-!
# CatDist — verification of the tabular catalog store and cart pricing engine

Shallow embedding of the core logic of `src/app/routes.py` (Flask catalog/cart
demo backed by spreadsheet-style files).  Python floats are modelled as `ℚ`;
tabular cell values as an explicit `Cell` type (`none` for Python `None` /
missing columns, `num` for numeric cells, `str` for text cells — pandas `NaN`
cells lie outside the rational fragment and are not modelled); exceptions as
`Except`/`Option`.
-/

namespace CatDist

/-- A cell value as seen by the row-coercion code in `routes.py`:
Python `None` (a `row.get` miss), a numeric value, or a string. -/
inductive Cell where
  | none : Cell
  | num : ℚ → Cell
  | str : String → Cell
deriving DecidableEq, Repr

/-- Python truthiness of a `Cell` (`None` falsy, numbers falsy iff zero,
strings falsy iff empty), as used by `x or default`. -/
def Cell.truthy : Cell → Bool
  | Cell.none => false
  | Cell.num q => q ≠ 0
  | Cell.str s => s ≠ ""

/-- Python's `a or b`: `a` if truthy, else `b`. -/
def pyOr (a b : Cell) : Cell := if a.truthy then a else b

/-- Split a character list at every occurrence of the separator. -/
def splitOnChar (c : Char) : List Char → List (List Char)
  | [] => [[]]
  | x :: xs =>
      let r := splitOnChar c xs
      if x = c then [] :: r
      else
        match r with
        | [] => [[x]]
        | h :: t => (x :: h) :: t

/-- The whitespace characters stripped by Python's `str.strip()` (ASCII
fragment). -/
def pyIsSpace (c : Char) : Bool :=
  c = ' ' ∨ c = '\t' ∨ c = '\n' ∨ c = '\r' ∨ c = '\x0b' ∨ c = '\x0c'

/-- Strip leading and trailing whitespace from a character list. -/
def trimChars (l : List Char) : List Char :=
  ((l.dropWhile pyIsSpace).reverse.dropWhile pyIsSpace).reverse

/-- The numeric value of a digit string. -/
def digitsVal (l : List Char) : ℕ :=
  l.foldl (fun a c => a * 10 + (c.toNat - 48)) 0

/-- Python's `str.strip()`. -/
def pyStrip (s : String) : String := String.mk (trimChars s.data)

/-- Python's `str.upper()` (ASCII fragment). -/
def pyUpper (s : String) : String := String.mk (s.data.map Char.toUpper)

/-- Python's `str.lower()` (ASCII fragment). -/
def pyLower (s : String) : String := String.mk (s.data.map Char.toLower)

/-- Parses a finite decimal literal the way Python's `float(str)` does on the
plain-decimal fragment: surrounding whitespace stripped, optional sign, digits
with an optional single decimal point.  Returns `Option.none` where `float`
raises `ValueError`. -/
def parsePyFloat (s : String) : Option ℚ :=
  let t := trimChars s.data
  let p : Bool × List Char :=
    match t with
    | '-' :: rest => (true, rest)
    | '+' :: rest => (false, rest)
    | _ => (false, t)
  let val : Option ℚ :=
    match splitOnChar '.' p.2 with
    | [a] =>
        if a.all Char.isDigit ∧ a ≠ [] then some ((digitsVal a : ℚ))
        else Option.none
    | [a, b] =>
        if a.all Char.isDigit ∧ b.all Char.isDigit ∧ ¬(a = [] ∧ b = []) then
          some ((digitsVal a : ℚ) + (digitsVal b : ℚ) / (10 : ℚ) ^ b.length)
        else Option.none
    | _ => Option.none
  match val with
  | some v => some (if p.1 then -v else v)
  | Option.none => Option.none

/-- Python's `float(cell)`: numbers pass through, strings are parsed,
`None` raises (`Option.none`). -/
def pyFloat : Cell → Option ℚ
  | Cell.none => Option.none
  | Cell.num q => some q
  | Cell.str s => parsePyFloat s

/-- `pd.isna` on the modelled fragment: true exactly on `None`. -/
def pd_isna : Cell → Bool
  | Cell.none => true
  | _ => false

/-- `_safe_float` (routes.py:55-61): `None`/NA becomes `None`; otherwise
`float(value)`, with any exception also swallowed to `None`. -/
def safe_float (c : Cell) : Option ℚ :=
  if pd_isna c then Option.none else pyFloat c

/-- Python's `str(cell)` restricted to what the loaders need: strings pass
through, `None` renders as `"None"`, numbers via their decimal rendering
(exact rendering of numbers is irrelevant to the claims). -/
def pyStr : Cell → String
  | Cell.none => "None"
  | Cell.num q => toString q
  | Cell.str s => s

/-- A pandas-style data frame: a frame-level column list plus rows of cells
positionally aligned with the columns. -/
structure DataFrame where
  cols : List String
  rows : List (List Cell)
deriving DecidableEq, Repr

/-- `row.get(col)` on a frame row: the cell at the column's position, `None`
when the column is absent from the frame. -/
def getCell (df : DataFrame) (row : List Cell) (c : String) : Cell :=
  match df.cols.findIdx? (fun x => x == c) with
  | some i => row.getD i Cell.none
  | Option.none => Cell.none

/-- The `Product` record (routes.py:27-34). -/
structure Product where
  id : String
  supplier_id : String
  name : String
  price : ℚ
  promo_price : Option ℚ
  image_path : Option String
deriving DecidableEq, Repr

/-- Image-path normalization in `load_products` (routes.py:111-116):
a non-empty string cell has backslashes turned into slashes and is prefixed
with the `images` asset root; anything else yields no path. -/
def imagePath : Cell → Option String
  | Cell.str s => if s = "" then Option.none else some ("images/" ++ s.replace "\\" "/")
  | _ => Option.none

/-- One iteration of the `load_products` row loop (routes.py:110-126).
`price` is `float(row.get("price") or 0.0)` — the `float` call is *not*
guarded, so a cell it cannot convert raises and aborts the load
(`Except.error`); `promo_price` goes through `_safe_float`. -/
def loadProductRow (df : DataFrame) (row : List Cell) : Except String Product :=
  match pyFloat (pyOr (getCell df row "price") (Cell.num 0)) with
  | some p =>
      Except.ok
        { id := pyStr (getCell df row "id")
          supplier_id := pyStr (getCell df row "supplier_id")
          name := pyStr (getCell df row "name")
          price := p
          promo_price := safe_float (getCell df row "promo_price")
          image_path := imagePath (getCell df row "image") }
  | Option.none => Except.error "ValueError: could not convert value to float"

/-- The body of `load_products` on an already-read frame (routes.py:109-127):
rows are converted in order; an unhandled exception in one row aborts the
whole load. -/
def loadProductsFrame (df : DataFrame) : Except String (List Product) :=
  df.rows.mapM (loadProductRow df)

/-- `_read_tabular` (routes.py:64-78).  The two on-disk files are modelled as
`Option (Except String DataFrame)`: absent, present-and-parsing, or
present-but-raising.  The xlsx file is tried first when it exists; a parse
exception falls through (`pass`) to the csv file; when both are absent or
unreadable the result is `None`. -/
def read_tabular (xlsx csv : Option (Except String DataFrame)) : Option DataFrame :=
  match xlsx with
  | some (Except.ok df) => some df
  | some (Except.error _) =>
      match csv with
      | some (Except.ok df) => some df
      | _ => Option.none
  | Option.none =>
      match csv with
      | some (Except.ok df) => some df
      | _ => Option.none

/-- `load_products` end to end (routes.py:104-127): a `None` frame (no
readable file) yields the empty product list, not an error. -/
def load_products (xlsx csv : Option (Except String DataFrame)) :
    Except String (List Product) :=
  match read_tabular xlsx csv with
  | Option.none => Except.ok []
  | some df => loadProductsFrame df

/-! ## CartStore (routes.py:152-160, 287-306)

The session cart is a Python dict from product id to int quantity, modelled as
an association list with at most one entry per key (the dict invariant). -/

/-- `cart.get(pid, 0)`. -/
def cartGet (cart : List (String × Int)) (pid : String) : Int :=
  match cart.find? (fun e => e.1 == pid) with
  | some e => e.2
  | Option.none => 0

/-- `cart[pid] = v` on a dict: replace the existing entry or append a new
one. -/
def cartSet (cart : List (String × Int)) (pid : String) (v : Int) :
    List (String × Int) :=
  if cart.any (fun e => e.1 == pid) then
    cart.map (fun e => if e.1 == pid then (e.1, v) else e)
  else cart ++ [(pid, v)]

/-- `cart_add` (routes.py:287-295): `cart[pid] = cart.get(pid, 0) + max(qty, 1)`. -/
def cart_add (cart : List (String × Int)) (pid : String) (qty : Int) :
    List (String × Int) :=
  cartSet cart pid (cartGet cart pid + max qty 1)

/-- `cart_remove` (routes.py:298-306): `cart.pop(pid)` when present, no-op
otherwise. -/
def cart_remove (cart : List (String × Int)) (pid : String) :
    List (String × Int) :=
  if cart.any (fun e => e.1 == pid) then cart.filter (fun e => e.1 != pid)
  else cart

/-! ## PricingCalculator (`view_cart`, routes.py:309-350) -/

/-- `{p.id: p for p in load_products()}` followed by `products.get(pid)`:
in a dict comprehension a later duplicate id overwrites an earlier one, so
lookup returns the *last* product with the given id. -/
def lookupProduct (products : List Product) (pid : String) : Option Product :=
  products.reverse.find? (fun p => p.id == pid)

/-- Effective unit price (routes.py:321): `promo_price` when present, else
`price`. -/
def effectivePrice (p : Product) : ℚ :=
  p.promo_price.getD p.price

/-- Python's `round(x)` to an integer: round-half-to-even. -/
def pyRound (q : ℚ) : ℤ :=
  if q - ⌊q⌋ = 1 / 2 then (if 2 ∣ ⌊q⌋ then ⌊q⌋ else ⌊q⌋ + 1) else round q

/-- Python's `round(x, 2)`: round to 2 decimal places, ties to even. -/
def round2 (q : ℚ) : ℚ :=
  (pyRound (q * 100) : ℚ) / 100

/-- The fixed coupon table lookup (routes.py:332-334):
`{"DESCONTO10": 0.10, "DESCONTO5": 0.05}.get(coupon_code, 0.0)` with the
session's `coupon_code` possibly absent. -/
def coupon_discount_rate (coupon : Option String) : ℚ :=
  match coupon with
  | some "DESCONTO10" => 1 / 10
  | some "DESCONTO5" => 1 / 20
  | _ => 0

/-- One itemized breakdown entry: product, quantity, unit price, line total. -/
structure CartItem where
  product : Product
  qty : Int
  price : ℚ
  line_total : ℚ
deriving DecidableEq, Repr

/-- Everything `view_cart` computes. -/
structure CartPricing where
  items : List CartItem
  total_value : ℚ
  discount_rate : ℚ
  discount_value : ℚ
  shipping_value : ℚ
  grand_total : ℚ
deriving DecidableEq, Repr

/-- The item/total accumulation loop of `view_cart` (routes.py:315-329):
entries whose product id does not resolve are skipped (`continue`). -/
def viewCartStep (products : List Product) (acc : List CartItem × ℚ)
    (e : String × Int) : List CartItem × ℚ :=
  match lookupProduct products e.1 with
  | Option.none => acc
  | some p =>
      let price := effectivePrice p
      let lt := price * (e.2 : ℚ)
      (acc.1 ++ [{ product := p, qty := e.2, price := price, line_total := lt }],
       acc.2 + lt)

/-- `view_cart` (routes.py:309-350).  `shipping` is the session's
`shipping_value` entry (`float(session.get("shipping_value", 0.0) or 0.0)`
is the identity on an already-stored float, with absence giving `0`). -/
def view_cart (cart : List (String × Int)) (products : List Product)
    (coupon : Option String) (shipping : Option ℚ) : CartPricing :=
  let it := cart.foldl (viewCartStep products) ([], 0)
  let rate := coupon_discount_rate coupon
  let dv := round2 (it.2 * rate)
  let sv := shipping.getD 0
  { items := it.1
    total_value := it.2
    discount_rate := rate
    discount_value := dv
    shipping_value := sv
    grand_total := max (it.2 - dv + sv) 0 }

/-- Specification-style subtotal: the sum over cart entries of effective
price × quantity for resolved products, with unresolved entries contributing
`0`. -/
def cart_subtotal (cart : List (String × Int)) (products : List Product) : ℚ :=
  (cart.map (fun e =>
    match lookupProduct products e.1 with
    | some p => effectivePrice p * (e.2 : ℚ)
    | Option.none => 0)).sum

/-! ## Coupon and shipping handlers (routes.py:479-502) -/

/-- `apply_coupon` (routes.py:479-489) as a function from the submitted form
field and the previously stored coupon to the stored coupon afterwards:
`code = (form.get("coupon", "").strip() or "").upper()`; a recognized code is
stored, anything else pops the stored coupon. -/
def apply_coupon (form : Option String) (stored : Option String) :
    Option String :=
  let t := pyStrip (form.getD "")
  let code := pyUpper (if t = "" then "" else t)
  if code = "DESCONTO10" ∨ code = "DESCONTO5" then some code
  else Option.none

/-- The argument of the `float` call in `set_shipping` (routes.py:495):
`request.form.get("shipping", 0) or 0`. -/
def set_shipping_raw (form : Option String) : Cell :=
  match form with
  | Option.none => Cell.num 0
  | some s => pyOr (Cell.str s) (Cell.num 0)

/-- The `try`/negative-check of `set_shipping` (routes.py:494-499): a failed
conversion or a negative value becomes `0.0`. -/
def pyFloatClamp (o : Option ℚ) : ℚ :=
  match o with
  | some v => if v < 0 then 0 else v
  | Option.none => 0

/-- `set_shipping` (routes.py:492-502) as a function from the submitted form
field to the stored shipping value: `float(form.get("shipping", 0) or 0)`,
negatives and conversion failures both clamped to `0.0`. -/
def set_shipping (form : Option String) : ℚ :=
  pyFloatClamp (pyFloat (set_shipping_raw form))

/-! ## ExportPipeline (routes.py:389-418, 421-475, 526-551)

All three exports iterate the cart with the same skip-unresolved loop as
`view_cart`. -/

/-- `f"{q:.2f}"` on the rational fragment: fixed two decimals, ties to even. -/
def fmt2 (q : ℚ) : String :=
  let n := pyRound (q * 100)
  let sign := if n < 0 then "-" else ""
  let m := n.natAbs
  let f := m % 100
  sign ++ toString (m / 100) ++ "." ++ (if f < 10 then "0" else "") ++ toString f

/-- Currency formatting of the CSV export (routes.py:545-546):
two decimals with the dot replaced by a comma. -/
def fmt2comma (q : ℚ) : String :=
  (fmt2 q).replace "." ","

/-- The data rows of `export_cart_csv` (routes.py:539-547):
`[SKU, Nome, Quantidade, PrecoUnitario, TotalLinha]` per resolved entry,
unresolved entries skipped. -/
def export_cart_csv_rows (cart : List (String × Int)) (products : List Product) :
    List (List String) :=
  cart.foldl (fun rows e =>
    match lookupProduct products e.1 with
    | Option.none => rows
    | some p =>
        let price := effectivePrice p
        rows ++ [[p.id, p.name, toString e.2, fmt2comma price,
                  fmt2comma (price * (e.2 : ℚ))]]) []

/-- One row of the xlsx export (routes.py:406-411):
`{"Produto", "Preço", "Quantidade", "Total"}`. -/
structure XlsxRow where
  produto : String
  preco : ℚ
  quantidade : Int
  total : ℚ
deriving DecidableEq, Repr

/-- The data rows of `export_cart_xlsx` (routes.py:399-411). -/
def export_cart_xlsx_rows (cart : List (String × Int)) (products : List Product) :
    List XlsxRow :=
  cart.foldl (fun rows e =>
    match lookupProduct products e.1 with
    | Option.none => rows
    | some p =>
        let price := effectivePrice p
        rows ++ [{ produto := p.name, preco := price, quantidade := e.2,
                   total := price * (e.2 : ℚ) }]) []

/-- The item tuples `(name, qty, price, line_total)` of `export_cart_pdf`
(routes.py:438-445). -/
def export_cart_pdf_items (cart : List (String × Int)) (products : List Product) :
    List (String × Int × ℚ × ℚ) :=
  cart.foldl (fun rows e =>
    match lookupProduct products e.1 with
    | Option.none => rows
    | some p =>
        let price := effectivePrice p
        rows ++ [(p.name, e.2, price, price * (e.2 : ℚ))]) []

/-! ## TabularStore write / ImportPipeline (routes.py:239-247, 641-665) -/

/-- The canonical products column set (routes.py:241). -/
def wanted_product_cols : List String :=
  ["id", "supplier_id", "name", "price", "promo_price", "image"]

/-- `_save_products_dataframe`'s schema normalization (routes.py:239-245):
every missing canonical column is inserted as a `None` column, extra columns
are dropped, and the columns take the fixed canonical order. -/
def save_products_dataframe (df : DataFrame) : DataFrame :=
  { cols := wanted_product_cols
    rows := df.rows.map (fun r => wanted_product_cols.map (getCell df r)) }

instance {ε α : Type} [DecidableEq ε] [DecidableEq α] : DecidableEq (Except ε α) :=
  fun a b =>
    match a, b with
    | Except.ok x, Except.ok y =>
        if h : x = y then isTrue (by rw [h]) else isFalse (by simp [h])
    | Except.error x, Except.error y =>
        if h : x = y then isTrue (by rw [h]) else isFalse (by simp [h])
    | Except.ok _, Except.error _ => isFalse (by simp)
    | Except.error _, Except.ok _ => isFalse (by simp)

/-- The on-disk products file pair managed by the store. -/
structure ProductsStore where
  xlsx : Option (Except String DataFrame)
  csv : Option (Except String DataFrame)
deriving DecidableEq, Repr

/-- `_save_products_dataframe` end to end (routes.py:239-247): the normalized
frame is written wholesale to both formats — a full replace, independent of
the previous store contents. -/
def save_products_store (df : DataFrame) (prev : ProductsStore) : ProductsStore :=
  { xlsx := some (Except.ok (save_products_dataframe df))
    csv := some (Except.ok (save_products_dataframe df)) }

/-! ## AdminCredentialStore / authorization (routes.py:163-214) -/

/-- `_get_current_user` restricted to the identity email (routes.py:163-176):
an absent or empty session email gives no user; the admin email gives the
synthetic admin user; otherwise the first client with a matching email,
if any. -/
def get_current_user_email (sessionEmail : Option String) (adminEmail : String)
    (clientEmails : List String) : Option String :=
  match sessionEmail with
  | Option.none => Option.none
  | some e =>
      if e = "" then Option.none
      else if e = adminEmail then some e
      else if clientEmails.contains e then some e
      else Option.none

/-- `_is_admin_email` (routes.py:205-207): non-empty and equal to the stored
admin email. -/
def is_admin_email (email : String) (adminEmail : String) : Bool :=
  email ≠ "" && email == adminEmail

/-- `_require_admin` (routes.py:210-214): an error message unless the current
user exists and has the admin email. -/
def require_admin (sessionEmail : Option String) (adminEmail : String)
    (clientEmails : List String) : Option String :=
  match get_current_user_email sessionEmail adminEmail clientEmails with
  | Option.none => some "Acesso restrito ao administrador."
  | some e =>
      if is_admin_email e adminEmail then Option.none
      else some "Acesso restrito ao administrador."

/-- An uploaded file: its (sanitized) filename and what parsing its bytes in
each of the two supported formats would yield. -/
structure Upload where
  filename : String
  parse_xlsx : Except String DataFrame
  parse_csv : Except String DataFrame

/-- `ext = filename.rsplit(".", 1)[-1].lower() if "." in filename else ""`
(routes.py:652). -/
def fileExt (filename : String) : String :=
  if filename.data.contains '.' then
    pyLower (String.mk ((splitOnChar '.' filename.data).getLastD []))
  else ""

/-- Observable outcome of a products import request. -/
inductive ImportResult where
  | authRedirect
  | noFileRedirect
  | unsupportedFormat
  | saved
  | importFailed
deriving DecidableEq, Repr

/-- The post-authorization part of `products_import_submit`
(routes.py:647-665): the file-presence check, extension dispatch, parse,
and full-replace save, with parse failures caught. -/
def import_products_file (f : Upload) (store : ProductsStore) :
    ImportResult × ProductsStore :=
  if f.filename = "" then (ImportResult.noFileRedirect, store)
  else if fileExt f.filename = "xlsx" then
    match f.parse_xlsx with
    | Except.ok df => (ImportResult.saved, save_products_store df store)
    | Except.error _ => (ImportResult.importFailed, store)
  else if fileExt f.filename = "csv" then
    match f.parse_csv with
    | Except.ok df => (ImportResult.saved, save_products_store df store)
    | Except.error _ => (ImportResult.importFailed, store)
  else (ImportResult.unsupportedFormat, store)

/-- `products_import_submit` (routes.py:641-665): admin check first; only an
authorized request with a present file reaches the parse/save stage. -/
def products_import_submit (sessionEmail : Option String) (adminEmail : String)
    (clientEmails : List String) (file : Option Upload) (store : ProductsStore) :
    ImportResult × ProductsStore :=
  match require_admin sessionEmail adminEmail clientEmails with
  | some _ => (ImportResult.authRedirect, store)
  | Option.none =>
    match file with
    | Option.none => (ImportResult.noFileRedirect, store)
    | some f => import_products_file f store

/-! ## Cart operation sequences (for the C8 invariant) -/

/-- A cart-mutating request: `cart_add` or `cart_remove`. -/
inductive CartOp where
  | add (pid : String) (qty : Int)
  | remove (pid : String)

/-- Dispatch one cart operation. -/
def cartStep (cart : List (String × Int)) : CartOp → List (String × Int)
  | CartOp.add pid qty => cart_add cart pid qty
  | CartOp.remove pid => cart_remove cart pid

/-- The cart reached from the empty session cart by a request sequence. -/
def runCartOps (ops : List CartOp) : List (String × Int) :=
  ops.foldl cartStep []

/-- Every stored quantity is a positive integer. -/
def CartInv (cart : List (String × Int)) : Prop :=
  ∀ e ∈ cart, 0 < e.2

/-! ## Helper lemmas -/

theorem cartGet_nonneg {cart : List (String × Int)} (h : CartInv cart)
    (pid : String) : 0 ≤ cartGet cart pid := by
  unfold cartGet
  cases hf : cart.find? (fun e => e.1 == pid) with
  | none => exact le_refl 0
  | some e => exact le_of_lt (h e (List.mem_of_find?_eq_some hf))

theorem cartSet_inv {cart : List (String × Int)} (h : CartInv cart)
    {pid : String} {v : Int} (hv : 0 < v) : CartInv (cartSet cart pid v) := by
  unfold cartSet
  split
  · intro e he
    obtain ⟨x, hx, hxe⟩ := List.mem_map.mp he
    by_cases hk : x.1 == pid
    · simp only [hk, if_pos] at hxe
      exact hxe ▸ hv
    · simp only [hk, if_neg] at hxe
      simp only [Bool.false_eq_true, if_false] at hxe
      exact hxe ▸ h x hx
  · intro e he
    rcases List.mem_append.mp he with h1 | h2
    · exact h e h1
    · rcases List.mem_singleton.mp h2 with rfl
      exact hv

theorem cart_add_inv {cart : List (String × Int)} (h : CartInv cart)
    (pid : String) (qty : Int) : CartInv (cart_add cart pid qty) := by
  unfold cart_add
  apply cartSet_inv h
  have h0 : 0 ≤ cartGet cart pid := cartGet_nonneg h pid
  have h1 : (1 : Int) ≤ max qty 1 := le_max_right qty 1
  omega

theorem cart_remove_inv {cart : List (String × Int)} (h : CartInv cart)
    (pid : String) : CartInv (cart_remove cart pid) := by
  unfold cart_remove
  split
  · intro e he
    exact h e (List.mem_of_mem_filter he)
  · exact h

theorem runCartOps_inv_aux (ops : List CartOp) :
    ∀ cart, CartInv cart → CartInv (ops.foldl cartStep cart) := by
  induction ops with
  | nil => intro cart h; exact h
  | cons op rest ih =>
      intro cart h
      rw [List.foldl_cons]
      apply ih
      cases op with
      | add pid qty => exact cart_add_inv h pid qty
      | remove pid => exact cart_remove_inv h pid

theorem viewCart_foldl_total (products : List Product) :
    ∀ (cart : List (String × Int)) (acc : List CartItem × ℚ),
      (cart.foldl (viewCartStep products) acc).2
        = acc.2 + cart_subtotal cart products := by
  intro cart
  induction cart with
  | nil => intro acc; simp [cart_subtotal]
  | cons e rest ih =>
      intro acc
      rw [List.foldl_cons]
      rw [ih]
      cases h : lookupProduct products e.1 with
      | none => simp [viewCartStep, h, cart_subtotal]
      | some p =>
          simp only [viewCartStep, h, cart_subtotal, List.map_cons, List.sum_cons]
          ring

theorem applyCoupon_code (s : String) (stored : Option String) :
    apply_coupon (some s) stored =
      (if pyUpper (pyStrip s) = "DESCONTO10" ∨ pyUpper (pyStrip s) = "DESCONTO5"
       then some (pyUpper (pyStrip s)) else Option.none) := by
  unfold apply_coupon
  by_cases h : pyStrip s = ""
  · simp only [Option.getD, h, if_pos]
  · simp only [Option.getD, h, if_neg, if_false]

/-! ## Claim theorems -/

/-- C1: for every cart, catalog, coupon code and shipping value, `view_cart`
computes subtotal = sum of effective price × quantity over resolved entries,
discount value = round(subtotal × rate, 2), grand total =
max(subtotal − discount value + shipping value, 0), and the grand total is
never negative. -/
theorem pricing_grand_total_spec (cart : List (String × Int))
    (products : List Product) (coupon : Option String) (shipping : Option ℚ) :
    (view_cart cart products coupon shipping).total_value
        = cart_subtotal cart products ∧
    (view_cart cart products coupon shipping).discount_value
        = round2 (cart_subtotal cart products * coupon_discount_rate coupon) ∧
    (view_cart cart products coupon shipping).grand_total
        = max ((view_cart cart products coupon shipping).total_value
                - (view_cart cart products coupon shipping).discount_value
                + (view_cart cart products coupon shipping).shipping_value) 0 ∧
    0 ≤ (view_cart cart products coupon shipping).grand_total := by
  have htot : (cart.foldl (viewCartStep products) ([], 0)).2
      = cart_subtotal cart products := by
    rw [viewCart_foldl_total products cart ([], 0)]
    simp
  refine ⟨?_, ?_, ?_, ?_⟩
  · simp only [view_cart]
    exact htot
  · simp only [view_cart]
    rw [htot]
  · simp only [view_cart]
  · simp only [view_cart]
    exact le_max_right _ 0

/-- C3: the discount rate is exactly 1/10 for `"DESCONTO10"`, exactly 1/20
for `"DESCONTO5"`, and 0 for any other stored code; and submitting an
unrecognized coupon code removes the stored coupon (no error). -/
theorem coupon_rates_and_clear :
    coupon_discount_rate (some "DESCONTO10") = 1 / 10 ∧
    coupon_discount_rate (some "DESCONTO5") = 1 / 20 ∧
    (∀ c : Option String, c ≠ some "DESCONTO10" → c ≠ some "DESCONTO5" →
        coupon_discount_rate c = 0) ∧
    (∀ s stored, pyUpper (pyStrip s) ≠ "DESCONTO10" →
        pyUpper (pyStrip s) ≠ "DESCONTO5" →
        apply_coupon (some s) stored = Option.none) := by
  refine ⟨rfl, rfl, ?_, ?_⟩
  · intro c h10 h5
    unfold coupon_discount_rate
    split
    · exact absurd rfl h10
    · exact absurd rfl h5
    · rfl
  · intro s stored h10 h5
    rw [applyCoupon_code]
    simp [h10, h5]

/-- C3 witness: a concrete unrecognized code has rate 0 and clears the
stored coupon. -/
theorem coupon_rates_and_clear_witness :
    coupon_discount_rate (some "FOO") = 0 ∧
    apply_coupon (some "foo") (some "DESCONTO10") = Option.none :=
  ⟨coupon_rates_and_clear.2.2.1 (some "FOO") (by decide) (by decide),
   coupon_rates_and_clear.2.2.2 "foo" (some "DESCONTO10") (by decide) (by decide)⟩

/-- C2 counterexample: a row whose price cell is the non-empty string
`"abc"` does not get price 0.0 — `float("abc")` raises and the whole load
aborts with an error, contradicting the claimed silent per-row recovery. -/
theorem load_products_aborts_on_bad_price :
    loadProductsFrame
        { cols := ["id", "price"], rows := [[Cell.str "p1", Cell.str "abc"]] }
      = Except.error "ValueError: could not convert value to float" := by
  decide

/-- C2 (amended): a row whose price cell is falsy (absent/`None`, zero, or
the empty string) is given price 0.0, and a `promo_price` that fails
conversion becomes absent, silently; but a row whose price cell is a
non-empty string that fails to convert aborts the whole load with an error
instead of defaulting to 0.0. -/
theorem load_products_price_coercion :
    (∀ (df : DataFrame) (row : List Cell),
        (getCell df row "price").truthy = false →
        ∃ p, loadProductRow df row = Except.ok p ∧ p.price = 0) ∧
    (∀ (df : DataFrame) (row : List Cell),
        safe_float (getCell df row "promo_price") = Option.none →
        ∀ p, loadProductRow df row = Except.ok p → p.promo_price = Option.none) ∧
    (∀ (df : DataFrame) (row : List Cell) (s : String),
        getCell df row "price" = Cell.str s → s ≠ "" →
        parsePyFloat s = Option.none →
        loadProductRow df row
          = Except.error "ValueError: could not convert value to float") := by
  refine ⟨?_, ?_, ?_⟩
  · intro df row h
    have hor : pyOr (getCell df row "price") (Cell.num 0) = Cell.num 0 := by
      simp [pyOr, h]
    unfold loadProductRow
    rw [hor]
    exact ⟨_, rfl, rfl⟩
  · intro df row hp p hok
    unfold loadProductRow at hok
    cases hq : pyFloat (pyOr (getCell df row "price") (Cell.num 0)) with
    | none =>
        rw [hq] at hok
        exact Except.noConfusion hok
    | some q =>
        rw [hq] at hok
        injection hok with h1
        rw [← h1]
        exact hp
  · intro df row s hcell hne hparse
    have hor : pyOr (getCell df row "price") (Cell.num 0) = Cell.str s := by
      simp [pyOr, hcell, Cell.truthy, hne]
    unfold loadProductRow
    rw [hor]
    simp only [pyFloat]
    rw [hparse]

/-- C2 witness: the three coercion behaviors at concrete rows — `None`
price becomes 0, a bad `promo_price` string becomes absent while the row
survives, and a bad price string aborts. -/
theorem load_products_price_coercion_witness :
    (∃ p, loadProductRow { cols := ["id"], rows := [] } [Cell.str "p1"]
        = Except.ok p ∧ p.price = 0) ∧
    (∀ p, loadProductRow { cols := ["id", "price", "promo_price"], rows := [] }
        [Cell.str "p1", Cell.num 10, Cell.str "xyz"] = Except.ok p →
        p.promo_price = Option.none) ∧
    loadProductRow { cols := ["id", "price"], rows := [] }
        [Cell.str "p1", Cell.str "abc"]
      = Except.error "ValueError: could not convert value to float" :=
  ⟨load_products_price_coercion.1 _ _ (by decide),
   load_products_price_coercion.2.1 _ _ (by decide),
   load_products_price_coercion.2.2 _ _ "abc" (by decide) (by decide) (by decide)⟩

/-- C4: a cart entry whose product id resolves to no catalog product
contributes 0 to the subtotal and is excluded from the itemized breakdown in
the cart view and in all three exports, with no error raised. -/
theorem unresolved_entry_skipped (cart : List (String × Int))
    (products : List Product) (coupon : Option String) (shipping : Option ℚ)
    (pid : String) (qty : Int)
    (h : lookupProduct products pid = Option.none) :
    cart_subtotal ((pid, qty) :: cart) products = cart_subtotal cart products ∧
    view_cart ((pid, qty) :: cart) products coupon shipping
        = view_cart cart products coupon shipping ∧
    export_cart_csv_rows ((pid, qty) :: cart) products
        = export_cart_csv_rows cart products ∧
    export_cart_xlsx_rows ((pid, qty) :: cart) products
        = export_cart_xlsx_rows cart products ∧
    export_cart_pdf_items ((pid, qty) :: cart) products
        = export_cart_pdf_items cart products := by
  refine ⟨?_, ?_, ?_, ?_, ?_⟩
  · simp [cart_subtotal, h]
  · simp only [view_cart, List.foldl_cons, viewCartStep, h]
  · simp only [export_cart_csv_rows, List.foldl_cons, h]
  · simp only [export_cart_xlsx_rows, List.foldl_cons, h]
  · simp only [export_cart_pdf_items, List.foldl_cons, h]

/-- C4 witness: a concrete unresolved cart entry is skipped everywhere. -/
theorem unresolved_entry_skipped_witness :
    cart_subtotal [("ghost", 2)] [] = cart_subtotal [] [] ∧
    view_cart [("ghost", 2)] [] Option.none Option.none
        = view_cart [] [] Option.none Option.none ∧
    export_cart_csv_rows [("ghost", 2)] [] = export_cart_csv_rows [] [] ∧
    export_cart_xlsx_rows [("ghost", 2)] [] = export_cart_xlsx_rows [] [] ∧
    export_cart_pdf_items [("ghost", 2)] [] = export_cart_pdf_items [] [] :=
  unresolved_entry_skipped [] [] Option.none Option.none "ghost" 2 rfl

/-- C8: starting from the empty cart, any sequence of add/remove requests
leaves only positive quantities; `cart_add` increments the existing quantity
by `max(qty, 1)` (clamping and incrementing, not overwriting); and removing an
absent product id leaves the cart unchanged (no error). -/
theorem cart_quantities_positive :
    (∀ ops : List CartOp, CartInv (runCartOps ops)) ∧
    (∀ (cart : List (String × Int)) (pid : String) (qty : Int),
        cartGet (cart_add cart pid qty) pid = cartGet cart pid + max qty 1) ∧
    (∀ (cart : List (String × Int)) (pid : String),
        (∀ e ∈ cart, e.1 ≠ pid) → cart_remove cart pid = cart) := by
  refine ⟨?_, ?_, ?_⟩
  · intro ops
    exact runCartOps_inv_aux ops [] (by intro e he; cases he)
  · intro cart pid qty
    unfold cart_add cartSet
    split
    · next hany =>
        unfold cartGet
        obtain ⟨x, hx, hxk⟩ := List.any_eq_true.mp hany
        induction cart with
        | nil => cases hx
        | cons a rest ih =>
            by_cases ha : a.1 == pid
            · simp [List.find?, ha]
            · rcases List.mem_cons.mp hx with rfl | hx2
              · exact absurd hxk ha
              · have hrest : rest.any (fun e => e.1 == pid) = true :=
                  List.any_eq_true.mpr ⟨x, hx2, hxk⟩
                simp only [List.map_cons, ha, if_neg]
                simp only [Bool.false_eq_true, if_false, List.find?, ha]
                exact ih hrest hx2
    · next hany =>
        have hfind : cart.find? (fun e => e.1 == pid) = Option.none := by
          rw [List.find?_eq_none]
          intro x hx hk
          exact hany (List.any_eq_true.mpr ⟨x, hx, hk⟩)
        unfold cartGet
        rw [List.find?_append, hfind]
        simp [List.find?]
  · intro cart pid hab
    unfold cart_remove
    split
    · next hany =>
        obtain ⟨x, hx, hxk⟩ := List.any_eq_true.mp hany
        exact absurd (eq_of_beq hxk) (hab x hx)
    · rfl

/-- C8 witness: concrete runs — a clamped negative-quantity add yields a
positive quantity, an add increments, and removing an absent id is a no-op. -/
theorem cart_quantities_positive_witness :
    CartInv (runCartOps [CartOp.add "a" (-7), CartOp.add "a" 2,
      CartOp.remove "b"]) ∧
    cartGet (cart_add [("a", 1)] "a" (-7)) "a" = cartGet [("a", 1)] "a" + max (-7) 1 ∧
    cart_remove [("a", 1)] "b" = [("a", 1)] := by
  refine ⟨cart_quantities_positive.1 _, cart_quantities_positive.2.1 _ _ _,
    cart_quantities_positive.2.2 [("a", 1)] "b" ?_⟩
  intro e he
  rcases List.mem_singleton.mp he with rfl
  decide

/-- C9: the shipping value stored by `set_shipping` is always non-negative:
a negative submitted value and an unparsable submitted value are both stored
as 0, so `view_cart` never sees a negative shipping value. -/
theorem shipping_nonneg :
    (∀ form : Option String, 0 ≤ set_shipping form) ∧
    (∀ s : String, parsePyFloat s = Option.none → set_shipping (some s) = 0) ∧
    (∀ (s : String) (v : ℚ), parsePyFloat s = some v → v < 0 →
        set_shipping (some s) = 0) ∧
    (∀ (cart : List (String × Int)) (products : List Product)
        (coupon form : Option String),
        0 ≤ (view_cart cart products coupon
              (some (set_shipping form))).shipping_value) := by
  have clamp : ∀ o : Option ℚ, 0 ≤ pyFloatClamp o := by
    intro o
    cases o with
    | none =>
        show (0 : ℚ) ≤ 0
        exact le_refl 0
    | some v =>
        show (0 : ℚ) ≤ if v < 0 then 0 else v
        split
        · exact le_refl 0
        · next hv => exact le_of_not_lt hv
  have key : ∀ form : Option String, 0 ≤ set_shipping form := by
    intro form
    exact clamp _
  refine ⟨key, ?_, ?_, ?_⟩
  · intro s hs
    by_cases h : s = ""
    · subst h
      decide
    · have hraw : set_shipping_raw (some s) = Cell.str s := by
        simp [set_shipping_raw, pyOr, Cell.truthy, h]
      unfold set_shipping
      rw [hraw]
      show pyFloatClamp (parsePyFloat s) = 0
      rw [hs]
      rfl
  · intro s v hs hv
    have h : s ≠ "" := by
      intro h0
      subst h0
      rw [show parsePyFloat "" = Option.none from by decide] at hs
      cases hs
    have hraw : set_shipping_raw (some s) = Cell.str s := by
      simp [set_shipping_raw, pyOr, Cell.truthy, h]
    unfold set_shipping
    rw [hraw]
    show pyFloatClamp (parsePyFloat s) = 0
    rw [hs]
    show (if v < 0 then (0 : ℚ) else v) = 0
    rw [if_pos hv]
  · intro cart products coupon form
    simp only [view_cart, Option.getD]
    exact key form

/-- C9 witness: negative and unparsable submissions at concrete inputs. -/
theorem shipping_nonneg_witness :
    0 ≤ set_shipping (some "-3") ∧
    set_shipping (some "abc") = 0 ∧
    set_shipping (some "-3") = 0 ∧
    0 ≤ (view_cart [] [] Option.none (some (set_shipping (some "abc")))).shipping_value := by
  refine ⟨shipping_nonneg.1 _, shipping_nonneg.2.1 "abc" (by decide),
    shipping_nonneg.2.2.1 "-3" (-3) (by decide) (by decide),
    shipping_nonneg.2.2.2 [] [] Option.none (some "abc")⟩

/-- C10: applying a submitted coupon string stores `upper(trim(s))` exactly
when that equals one of the two recognized codes and otherwise removes the
stored coupon; consequently the stored coupon is always absent or one of the
two uppercase codes. -/
theorem coupon_case_insensitive_normalization :
    (∀ (s : String) (stored : Option String),
        apply_coupon (some s) stored =
          (if pyUpper (pyStrip s) = "DESCONTO10" ∨ pyUpper (pyStrip s) = "DESCONTO5"
           then some (pyUpper (pyStrip s)) else Option.none)) ∧
    (∀ (form stored : Option String),
        apply_coupon form stored = Option.none ∨
        apply_coupon form stored = some "DESCONTO10" ∨
        apply_coupon form stored = some "DESCONTO5") := by
  refine ⟨applyCoupon_code, ?_⟩
  intro form stored
  cases form with
  | none => left; rfl
  | some s =>
      rw [applyCoupon_code]
      by_cases h10 : pyUpper (pyStrip s) = "DESCONTO10"
      · right; left; simp [h10]
      · by_cases h5 : pyUpper (pyStrip s) = "DESCONTO5"
        · right; right; simp [h10, h5]
        · left; simp [h10, h5]

/-- C5: a products-import request from a session whose user is not the
administrator yields the authorization redirect with the store untouched and
the uploaded file never examined (the result is the same for every `file`
argument); the first conjunct characterizes the administrator sessions as
exactly those whose email equals the stored non-empty admin email. -/
theorem import_requires_admin :
    (∀ (e adminEmail : String) (clientEmails : List String),
        require_admin (some e) adminEmail clientEmails = Option.none ↔
          (e = adminEmail ∧ e ≠ "")) ∧
    (∀ (sessionEmail : Option String) (adminEmail : String)
        (clientEmails : List String) (file : Option Upload)
        (store : ProductsStore),
        require_admin sessionEmail adminEmail clientEmails ≠ Option.none →
        products_import_submit sessionEmail adminEmail clientEmails file store
          = (ImportResult.authRedirect, store)) := by
  constructor
  · intro e a cl
    constructor
    · intro h
      by_cases he : e = ""
      · exfalso
        revert h
        simp [require_admin, get_current_user_email, he]
      · by_cases ha : e = a
        · exact ⟨ha, he⟩
        · exfalso
          revert h
          by_cases hc : e ∈ cl <;>
            simp [require_admin, get_current_user_email, is_admin_email,
              he, ha, hc]
    · rintro ⟨ha, he⟩
      subst ha
      simp [require_admin, get_current_user_email, is_admin_email, he]
  · intro sessionEmail adminEmail clientEmails file store h
    unfold products_import_submit
    cases hr : require_admin sessionEmail adminEmail clientEmails with
    | none => exact absurd hr h
    | some msg => rfl

/-- C5 witness: a non-administrator session is turned away with the store
unchanged, and the admin characterization holds at a concrete email. -/
theorem import_requires_admin_witness :
    (require_admin (some "root@x") "root@x" [] = Option.none ↔
        ("root@x" = "root@x" ∧ "root@x" ≠ "")) ∧
    products_import_submit (some "mallory@x") "root@x" ["mallory@x"]
        (some { filename := "p.csv",
                parse_xlsx := Except.error "bad",
                parse_csv := Except.ok { cols := ["id"], rows := [] } })
        { xlsx := Option.none, csv := Option.none }
      = (ImportResult.authRedirect,
         { xlsx := Option.none, csv := Option.none }) :=
  ⟨import_requires_admin.1 "root@x" "root@x" [],
   import_requires_admin.2 _ _ _ _ _ (by decide)⟩

/-- C6: `_read_tabular` returns a successfully parsed xlsx frame when one
exists; a failing xlsx file behaves exactly like an absent one, falling back
to the csv file; when neither file yields a frame the result is `None`, and
`load_products` then returns the empty list rather than an error. -/
theorem read_tabular_fallback :
    (∀ (df : DataFrame) (csv : Option (Except String DataFrame)),
        read_tabular (some (Except.ok df)) csv = some df) ∧
    (∀ (e : String) (csv : Option (Except String DataFrame)),
        read_tabular (some (Except.error e)) csv
          = read_tabular Option.none csv) ∧
    (∀ (e : String) (df : DataFrame),
        read_tabular (some (Except.error e)) (some (Except.ok df)) = some df) ∧
    (∀ (xlsx csv : Option (Except String DataFrame)),
        (∀ df, xlsx ≠ some (Except.ok df)) →
        (∀ df, csv ≠ some (Except.ok df)) →
        read_tabular xlsx csv = Option.none) ∧
    (∀ (xlsx csv : Option (Except String DataFrame)),
        (∀ df, xlsx ≠ some (Except.ok df)) →
        (∀ df, csv ≠ some (Except.ok df)) →
        load_products xlsx csv = Except.ok []) ∧
    load_products Option.none Option.none = Except.ok [] := by
  have hrt : ∀ (xlsx csv : Option (Except String DataFrame)),
      (∀ df, xlsx ≠ some (Except.ok df)) →
      (∀ df, csv ≠ some (Except.ok df)) →
      read_tabular xlsx csv = Option.none := by
    intro xlsx csv h1 h2
    cases xlsx with
    | none =>
        cases csv with
        | none => rfl
        | some c =>
            cases c with
            | ok df => exact absurd rfl (h2 df)
            | error e => rfl
    | some x =>
        cases x with
        | ok df => exact absurd rfl (h1 df)
        | error e =>
            cases csv with
            | none => rfl
            | some c =>
                cases c with
                | ok df => exact absurd rfl (h2 df)
                | error e2 => rfl
  refine ⟨fun df csv => rfl, fun e csv => rfl, fun e df => rfl, hrt, ?_, rfl⟩
  intro xlsx csv h1 h2
  unfold load_products
  rw [hrt xlsx csv h1 h2]

/-- C6 witness: an unreadable xlsx with no csv gives no frame and an empty
product list. -/
theorem read_tabular_fallback_witness :
    read_tabular (some (Except.error "parse failure")) Option.none
      = Option.none ∧
    load_products (some (Except.error "parse failure")) Option.none
      = Except.ok [] :=
  ⟨read_tabular_fallback.2.2.2.1 _ _
      (fun df h => Except.noConfusion (Option.some.inj h))
      (fun df h => Option.noConfusion h),
   read_tabular_fallback.2.2.2.2.1 _ _
      (fun df h => Except.noConfusion (Option.some.inj h))
      (fun df h => Option.noConfusion h)⟩

/-- C7: the canonical-column normalization is idempotent, the full-replace
write of a given frame is insensitive to the previous store, and a second
run of the same upload reproduces exactly the store produced by the
first. -/
theorem import_idempotent :
    (∀ df : DataFrame,
        save_products_dataframe (save_products_dataframe df)
          = save_products_dataframe df) ∧
    (∀ (df : DataFrame) (store : ProductsStore),
        save_products_store df (save_products_store df store)
          = save_products_store df store) ∧
    (∀ (s : Option String) (a : String) (cl : List String) (f : Upload)
        (store st1 : ProductsStore),
        products_import_submit s a cl (some f) store
          = (ImportResult.saved, st1) →
        products_import_submit s a cl (some f) st1
          = (ImportResult.saved, st1)) := by
  have hfile : ∀ (f : Upload) (store st1 : ProductsStore),
      import_products_file f store = (ImportResult.saved, st1) →
      import_products_file f st1 = (ImportResult.saved, st1) := by
    intro f store st1 h
    unfold import_products_file at h ⊢
    by_cases hf : f.filename = ""
    · rw [if_pos hf] at h
      exact absurd h (by simp)
    · rw [if_neg hf] at h ⊢
      by_cases hx : fileExt f.filename = "xlsx"
      · rw [if_pos hx] at h ⊢
        cases hp : f.parse_xlsx with
        | ok df =>
            rw [hp] at h
            have h2 : save_products_store df store = st1 := congrArg Prod.snd h
            rw [← h2]
            rfl
        | error e =>
            rw [hp] at h
            exact absurd h (by simp)
      · rw [if_neg hx] at h ⊢
        by_cases hc : fileExt f.filename = "csv"
        · rw [if_pos hc] at h ⊢
          cases hp : f.parse_csv with
          | ok df =>
              rw [hp] at h
              have h2 : save_products_store df store = st1 := congrArg Prod.snd h
              rw [← h2]
              rfl
          | error e =>
              rw [hp] at h
              exact absurd h (by simp)
        · rw [if_neg hc] at h
          exact absurd h (by simp)
  refine ⟨?_, fun df store => rfl, ?_⟩
  · intro df
    simp only [save_products_dataframe, List.map_map]
    congr 1
  · intro s a cl f store st1
    unfold products_import_submit
    cases hr : require_admin s a cl with
    | some msg =>
        intro h
        exact absurd h (by simp)
    | none => exact hfile f store st1

/-- C7 witness: a concrete successful admin import, run a second time,
reproduces the same stored dataset. -/
theorem import_idempotent_witness :
    products_import_submit (some "root@x") "root@x" []
        (some { filename := "p.csv",
                parse_xlsx := Except.error "bad",
                parse_csv := Except.ok { cols := ["id"], rows := [[Cell.str "x"]] } })
        (save_products_store { cols := ["id"], rows := [[Cell.str "x"]] }
          { xlsx := Option.none, csv := Option.none })
      = (ImportResult.saved,
         save_products_store { cols := ["id"], rows := [[Cell.str "x"]] }
           { xlsx := Option.none, csv := Option.none }) :=
  import_idempotent.2.2 _ _ _ _
    { xlsx := Option.none, csv := Option.none } _ (by decide)

end CatDist
